import Mathlib

/-!
Verification of the MagicAuth SDK context-comparison engine.

The two comparison functions `compare.userAgents` and `compare.ipAddresses`
(and their legacy JavaScript counterparts) are translated from
`src/src/index.ts`.  Those functions delegate IP classification/equality to
the external `ip` package and user-agent parsing to the external
`ua-parser-js` package, whose implementations are not part of this
repository; those collaborators are modelled from the specification's
description of their behaviour (private/reserved classification, canonical
address equality, best-effort never-failing user-agent parsing).
-/

namespace Magicauth

/-- Splits a list of characters on a separator character.  Used to model
address parsing (octets separated by dots, groups separated by colons). -/
def splitChar (sep : Char) : List Char → List (List Char)
  | [] => [[]]
  | c :: cs =>
    let r := splitChar sep cs
    if c = sep then [] :: r
    else
      match r with
      | [] => [[c]]
      | h :: t => (c :: h) :: t

/-- Tests whether the pattern appears at the head of the text. -/
def leadEq : List Char → List Char → Bool
  | [], _ => true
  | _ :: _, [] => false
  | p :: ps, c :: cs => if p = c then leadEq ps cs else false

/-- Tests whether the pattern occurs as a contiguous run inside the text. -/
def occursIn (pat : List Char) : List Char → Bool
  | [] => pat.isEmpty
  | c :: cs => leadEq pat (c :: cs) || occursIn pat cs

/-- An IP address parsed to its numeric value: four IPv4 octets, or the
eight 16-bit groups of an IPv6 address after decompression. -/
inductive IpAddr where
  | v4 (a b c d : Nat)
  | v6 (groups : List Nat)
deriving DecidableEq

namespace ip

/-- Numeric value of a decimal digit character, `none` otherwise. -/
def decVal (c : Char) : Option Nat :=
  if 48 ≤ c.toNat ∧ c.toNat ≤ 57 then some (c.toNat - 48) else none

/-- Numeric value of a hexadecimal digit character, `none` otherwise. -/
def hexVal (c : Char) : Option Nat :=
  if 48 ≤ c.toNat ∧ c.toNat ≤ 57 then some (c.toNat - 48)
  else if 97 ≤ c.toNat ∧ c.toNat ≤ 102 then some (c.toNat - 97 + 10)
  else if 65 ≤ c.toNat ∧ c.toNat ≤ 70 then some (c.toNat - 65 + 10)
  else none

/-- Reads a run of decimal digits left to right into an accumulator. -/
def decListVal : List Char → Nat → Option Nat
  | [], acc => some acc
  | c :: cs, acc =>
    match decVal c with
    | some d => decListVal cs (acc * 10 + d)
    | none => none

/-- Reads a run of hexadecimal digits left to right into an accumulator. -/
def hexListVal : List Char → Nat → Option Nat
  | [], acc => some acc
  | c :: cs, acc =>
    match hexVal c with
    | some d => hexListVal cs (acc * 16 + d)
    | none => none

/-- Parses one IPv4 octet: one to three decimal digits, value at most 255.
Leading zeros are accepted and ignored, so "095" and "95" denote the same
octet. -/
def parseOctet (cs : List Char) : Option Nat :=
  if cs.length = 0 ∨ 3 < cs.length then none
  else
    match decListVal cs 0 with
    | some v => if v ≤ 255 then some v else none
    | none => none

/-- Parses one IPv6 group: one to four hexadecimal digits. -/
def parseGroup (cs : List Char) : Option Nat :=
  if cs.length = 0 ∨ 4 < cs.length then none
  else hexListVal cs 0

/-- Splits the text at the first occurrence of a double colon, when one is
present. -/
def splitOnDoubleColon : List Char → Option (List Char × List Char)
  | [] => none
  | ':' :: ':' :: rest => some ([], rest)
  | c :: rest =>
    match splitOnDoubleColon rest with
    | some (l, r) => some (c :: l, r)
    | none => none

/-- Tests whether the text contains a double colon. -/
def hasDoubleColon : List Char → Bool
  | [] => false
  | ':' :: ':' :: _ => true
  | _ :: rest => hasDoubleColon rest

/-- Modelled from the spec: dotted-quad IPv4 parsing as used by the external
`ip` package (not part of this repository); leading zeros in octets are
normalized away so that equality is on the numeric address. -/
def parseIPv4 (cs : List Char) : Option IpAddr :=
  match (splitChar '.' cs).mapM parseOctet with
  | some [a, b, c, d] => some (.v4 a b c d)
  | _ => none

/-- Modelled from the spec: IPv6 parsing as used by the external `ip`
package (not part of this repository); a compressed form (one double colon)
is expanded to the full eight groups, so compressed and uncompressed
spellings of the same address compare equal. -/
def parseIPv6 (cs : List Char) : Option IpAddr :=
  match splitOnDoubleColon cs with
  | none =>
    match (splitChar ':' cs).mapM parseGroup with
    | some gs => if gs.length = 8 then some (.v6 gs) else none
    | none => none
  | some (l, r) =>
    if hasDoubleColon r then none
    else
      let pl := if l.isEmpty then some [] else (splitChar ':' l).mapM parseGroup
      let pr := if r.isEmpty then some [] else (splitChar ':' r).mapM parseGroup
      match pl, pr with
      | some gl, some gr =>
        if gl.length + gr.length ≤ 7 then
          some (.v6 (gl ++ List.replicate (8 - (gl.length + gr.length)) 0 ++ gr))
        else none
      | _, _ => none

/-- Modelled from the spec: textual address parsing of the external `ip`
package (not part of this repository).  A string that parses as neither
IPv4 nor IPv6 yields `none`; the callers below fail closed on it. -/
def parseIp (s : String) : Option IpAddr :=
  match parseIPv4 s.data with
  | some a => some a
  | none => parseIPv6 s.data

/-- Modelled from the spec: the external `ip` package's private/reserved
classification (not part of this repository) — RFC1918 IPv4 ranges,
loopback, link-local, and their IPv6 equivalents; a malformed address
classifies as non-private (fail closed). -/
def isPrivate (s : String) : Bool :=
  match parseIp s with
  | none => false
  | some (.v4 a b _ _) =>
    if a = 10 then true
    else if a = 172 ∧ 16 ≤ b ∧ b ≤ 31 then true
    else if a = 192 ∧ b = 168 then true
    else if a = 127 then true
    else if a = 169 ∧ b = 254 then true
    else false
  | some (.v6 gs) =>
    if gs = List.replicate 8 0 then true
    else if gs = [0, 0, 0, 0, 0, 0, 0, 1] then true
    else
      match gs with
      | [] => false
      | g0 :: _ =>
        if 65152 ≤ g0 ∧ g0 ≤ 65215 then true
        else if 64512 ≤ g0 ∧ g0 ≤ 65023 then true
        else false

/-- Modelled from the spec: the external `ip` package's address equality
(not part of this repository) — strict equality of the two addresses after
normalization, so compressed IPv6 forms and IPv4 leading zeros compare
equal; if either side is malformed the result is `false` (fail closed). -/
def isEqual (a b : String) : Bool :=
  match parseIp a, parseIp b with
  | some x, some y => decide (x = y)
  | _, _ => false

end ip

/-- CPU field of a parsed user agent, as exposed by the parser result. -/
structure UACpu where
  architecture : String
deriving DecidableEq

/-- OS field of a parsed user agent, as exposed by the parser result. -/
structure UAOs where
  name : String
deriving DecidableEq

/-- Browser field of a parsed user agent, as exposed by the parser result. -/
structure UABrowser where
  name : String
deriving DecidableEq

/-- Result of parsing a user-agent string: the three fields the comparison
policy reads. -/
structure UAResult where
  cpu : UACpu
  os : UAOs
  browser : UABrowser
deriving DecidableEq

namespace UserAgentParser

/-- Modelled from the spec: best-effort user-agent parsing by the external
`ua-parser-js` package (not part of this repository).  Parsing never fails:
a token that identifies the CPU architecture, OS family, or browser family
sets the corresponding field, and anything unrecognized leaves the field
empty. -/
def getResult (ua : String) : UAResult :=
  let cs := ua.data
  { cpu := ⟨
      if occursIn "x86_64".data cs ∨ occursIn "x64".data cs ∨ occursIn "amd64".data cs then
        "amd64"
      else if occursIn "aarch64".data cs ∨ occursIn "arm64".data cs then "arm64"
      else if occursIn "i686".data cs ∨ occursIn "i386".data cs then "ia32"
      else ""⟩
    os := ⟨
      if occursIn "Windows".data cs then "Windows"
      else if occursIn "Android".data cs then "Android"
      else if occursIn "Mac OS X".data cs then "Mac OS"
      else if occursIn "iPhone".data cs then "iOS"
      else if occursIn "Linux".data cs then "Linux"
      else ""⟩
    browser := ⟨
      if occursIn "Firefox/".data cs then "Firefox"
      else if occursIn "Edg/".data cs then "Edge"
      else if occursIn "Chrome/".data cs then "Chrome"
      else if occursIn "Safari/".data cs then "Safari"
      else ""⟩ }

end UserAgentParser

namespace compare

/-- Translated from src/src/index.ts lines 230-254: compare two user-agent
strings on CPU architecture, OS name, and browser name of their parsed
results; versions are not compared. -/
def userAgents (request_user_agent session_user_agent : String) : Bool :=
  let request_ua := UserAgentParser.getResult request_user_agent
  let session_ua := UserAgentParser.getResult session_user_agent
  if request_ua.cpu.architecture ≠ session_ua.cpu.architecture
      ∨ request_ua.os.name ≠ session_ua.os.name
      ∨ request_ua.browser.name ≠ session_ua.browser.name then
    false
  else
    true

/-- Translated from src/src/index.ts lines 263-268: the request IP matches
the session IP when the session IP is private or the two addresses are
equal. -/
def ipAddresses (request_ip_address session_ip_address : String) : Bool :=
  ip.isPrivate session_ip_address || ip.isEqual request_ip_address session_ip_address

end compare

namespace legacyCompare

/-- Translated from the legacy JavaScript block of src/src/index.ts
(lines 449-466): the same user-agent comparison as the TypeScript port. -/
def userAgents (request_user_agent session_user_agent : String) : Bool :=
  let request_ua := UserAgentParser.getResult request_user_agent
  let session_ua := UserAgentParser.getResult session_user_agent
  if request_ua.cpu.architecture ≠ session_ua.cpu.architecture
      ∨ request_ua.os.name ≠ session_ua.os.name
      ∨ request_ua.browser.name ≠ session_ua.browser.name then
    false
  else
    true

/-- Translated from the legacy JavaScript block of src/src/index.ts
(lines 475-479): the same IP comparison as the TypeScript port. -/
def ipAddresses (request_ip_address session_ip_address : String) : Bool :=
  ip.isPrivate session_ip_address || ip.isEqual request_ip_address session_ip_address

end legacyCompare

/-- Transcription of the spec's §4.2 matching algorithm, written from the
spec's words for comparison against the code-derived `compare.ipAddresses`:
a private/reserved session address returns true unconditionally, otherwise
the result is normalized address equality. -/
def ipAddressesSpecRule (request_ip session_ip : String) : Bool :=
  if ip.isPrivate session_ip = true then true
  else ip.isEqual request_ip session_ip

/-- Helper: the user-agent comparison equals the conjunction of the three
field equalities, as a boolean equation usable by several proofs. -/
theorem userAgents_decide (r s : String) :
    Magicauth.compare.userAgents r s =
      (decide ((UserAgentParser.getResult r).cpu.architecture =
          (UserAgentParser.getResult s).cpu.architecture) &&
        decide ((UserAgentParser.getResult r).os.name =
          (UserAgentParser.getResult s).os.name) &&
        decide ((UserAgentParser.getResult r).browser.name =
          (UserAgentParser.getResult s).browser.name)) := by
  by_cases h1 : (UserAgentParser.getResult r).cpu.architecture =
      (UserAgentParser.getResult s).cpu.architecture <;>
    by_cases h2 : (UserAgentParser.getResult r).os.name =
        (UserAgentParser.getResult s).os.name <;>
      by_cases h3 : (UserAgentParser.getResult r).browser.name =
          (UserAgentParser.getResult s).browser.name <;>
        simp [Magicauth.compare.userAgents, h1, h2, h3]

/-- Helper: deciding an equality is insensitive to the order of its sides. -/
theorem decide_eq_symm {α : Type} [DecidableEq α] (x y : α) :
    decide (x = y) = decide (y = x) := by
  by_cases h : x = y
  · subst h; rfl
  · have h2 : ¬y = x := fun hyx => h hyx.symm
    simp [h, h2]

end Magicauth

namespace Magicauth

/-- C1: for every pair of address strings, compare.ipAddresses returns true
unconditionally when the session address classifies as private, and
otherwise returns exactly the normalized equality of the two addresses
(the spec's rule, transcribed as ipAddressesSpecRule); two equal public
addresses match, two distinct public addresses do not, compressed IPv6
forms compare equal, and IPv4 leading zeros compare equal. -/
theorem c1_ipAddresses_follows_spec_rule :
    (∀ r s, Magicauth.compare.ipAddresses r s = Magicauth.ipAddressesSpecRule r s) ∧
    Magicauth.compare.ipAddresses "95.107.167.200" "95.107.167.200" = true ∧
    Magicauth.compare.ipAddresses "95.107.167.200" "8.8.8.8" = false ∧
    Magicauth.ip.isPrivate "95.107.167.200" = false ∧
    Magicauth.ip.isPrivate "8.8.8.8" = false ∧
    Magicauth.ip.isEqual "2001:db8::1" "2001:0db8:0:0:0:0:0:1" = true ∧
    Magicauth.ip.isEqual "095.107.167.200" "95.107.167.200" = true := by
  refine ⟨fun r s => ?_, by decide, by decide, by decide, by decide, by decide, by decide⟩
  unfold Magicauth.compare.ipAddresses Magicauth.ipAddressesSpecRule
  cases h : Magicauth.ip.isPrivate s <;> simp [h]

/-- C2: compare.userAgents returns true exactly when the two parsed results
agree on all three of CPU architecture, OS name, and browser name under
string equality; no other parsed field influences the result. -/
theorem c2_userAgents_iff_fields (r s : String) :
    Magicauth.compare.userAgents r s = true ↔
      ((UserAgentParser.getResult r).cpu.architecture =
          (UserAgentParser.getResult s).cpu.architecture ∧
        (UserAgentParser.getResult r).os.name = (UserAgentParser.getResult s).os.name ∧
        (UserAgentParser.getResult r).browser.name =
          (UserAgentParser.getResult s).browser.name) := by
  rw [userAgents_decide]
  simp [and_assoc]

/-- C2 witness: the characterization applied at a concrete identical pair. -/
theorem c2_userAgents_iff_fields_witness :
    Magicauth.compare.userAgents "Mozilla/5.0" "Mozilla/5.0" = true :=
  (c2_userAgents_iff_fields "Mozilla/5.0" "Mozilla/5.0").mpr ⟨rfl, rfl, rfl⟩

/-- C3: both comparison functions are total boolean functions; a malformed
address string classifies as non-private and compares non-equal (fail
closed) rather than raising, and an unparseable user-agent string degrades
to empty fields rather than raising. -/
theorem c3_fail_closed :
    (∀ s, Magicauth.ip.parseIp s = none → Magicauth.ip.isPrivate s = false) ∧
    (∀ r s, Magicauth.ip.parseIp s = none → Magicauth.compare.ipAddresses r s = false) ∧
    (∀ r s, Magicauth.ip.parseIp r = none → Magicauth.ip.isPrivate s = false →
      Magicauth.compare.ipAddresses r s = false) ∧
    Magicauth.UserAgentParser.getResult "certainly not a browser header @@@" =
      ⟨⟨""⟩, ⟨""⟩, ⟨""⟩⟩ := by
  refine ⟨?_, ?_, ?_, by decide⟩
  · intro s hs
    unfold Magicauth.ip.isPrivate
    rw [hs]
  · intro r s hs
    have h1 : Magicauth.ip.isPrivate s = false := by
      unfold Magicauth.ip.isPrivate
      rw [hs]
    have h2 : Magicauth.ip.isEqual r s = false := by
      unfold Magicauth.ip.isEqual
      rw [hs]
      cases Magicauth.ip.parseIp r <;> rfl
    simp [Magicauth.compare.ipAddresses, h1, h2]
  · intro r s hr hpriv
    have h2 : Magicauth.ip.isEqual r s = false := by
      unfold Magicauth.ip.isEqual
      rw [hr]
    simp [Magicauth.compare.ipAddresses, hpriv, h2]

/-- C3 witness: fail-closed behaviour at concrete malformed inputs. -/
theorem c3_fail_closed_witness :
    Magicauth.ip.isPrivate "not-an-ip" = false ∧
    Magicauth.compare.ipAddresses "95.107.167.200" "not-an-ip" = false ∧
    Magicauth.compare.ipAddresses "not-an-ip" "8.8.8.8" = false :=
  ⟨c3_fail_closed.1 "not-an-ip" (by decide),
    c3_fail_closed.2.1 "95.107.167.200" "not-an-ip" (by decide),
    c3_fail_closed.2.2.1 "not-an-ip" "8.8.8.8" (by decide) (by decide)⟩

/-- C4: whenever the session address parses as an IPv4 address lying in
10.0.0.0/8, 172.16.0.0/12, 192.168.0.0/16, or 127.0.0.0/8, the comparison
returns true for every request string. -/
theorem c4_private_session_bypass (x s : String) (a b c d : Nat)
    (hp : Magicauth.ip.parseIp s = some (.v4 a b c d))
    (hr : a = 10 ∨ (a = 172 ∧ 16 ≤ b ∧ b ≤ 31) ∨ (a = 192 ∧ b = 168) ∨ a = 127) :
    Magicauth.compare.ipAddresses x s = true := by
  have hpriv : Magicauth.ip.isPrivate s = true := by
    unfold Magicauth.ip.isPrivate
    rw [hp]
    rcases hr with h | ⟨h1, h2, h3⟩ | ⟨h1, h2⟩ | h <;> subst_vars <;> simp [*]
  simp [Magicauth.compare.ipAddresses, hpriv]

/-- C4 witness: the spec's example, a public request against a session in
192.168.0.0/16. -/
theorem c4_private_session_bypass_witness :
    Magicauth.compare.ipAddresses "8.8.8.8" "192.168.1.1" = true :=
  c4_private_session_bypass "8.8.8.8" "192.168.1.1" 192 168 1 1 (by decide)
    (Or.inr (Or.inr (Or.inl ⟨rfl, rfl⟩)))

/-- C5: compare.ipAddresses is order-dependent: a public request against a
private session matches, while the swapped pair does not. -/
theorem c5_ipAddresses_asymmetric :
    Magicauth.compare.ipAddresses "8.8.8.8" "192.168.1.1" = true ∧
    Magicauth.compare.ipAddresses "192.168.1.1" "8.8.8.8" = false ∧
    Magicauth.compare.ipAddresses "8.8.8.8" "192.168.1.1" ≠
      Magicauth.compare.ipAddresses "192.168.1.1" "8.8.8.8" := by
  decide

/-- C6: any two user-agent strings whose parses agree on all parsed fields
(in particular strings that differ only in version numbers) compare as
matching; versions are never compared. -/
theorem c6_version_insensitive (r s : String)
    (h : Magicauth.UserAgentParser.getResult r = Magicauth.UserAgentParser.getResult s) :
    Magicauth.compare.userAgents r s = true := by
  rw [userAgents_decide, h]
  simp

/-- C6 witness: the same OS and CPU with Chrome 81 versus Chrome 90. -/
theorem c6_version_insensitive_witness :
    Magicauth.compare.userAgents
      "Mozilla/5.0 (X11; Linux x86_64) AppleWebKit/537.36 (KHTML, like Gecko) Chrome/81.0.4044.129 Safari/537.36"
      "Mozilla/5.0 (X11; Linux x86_64) AppleWebKit/537.36 (KHTML, like Gecko) Chrome/90.0.4430.212 Safari/537.36" =
      true :=
  c6_version_insensitive
    "Mozilla/5.0 (X11; Linux x86_64) AppleWebKit/537.36 (KHTML, like Gecko) Chrome/81.0.4044.129 Safari/537.36"
    "Mozilla/5.0 (X11; Linux x86_64) AppleWebKit/537.36 (KHTML, like Gecko) Chrome/90.0.4430.212 Safari/537.36"
    (by decide)

/-- C7: compare.userAgents is symmetric in its two arguments. -/
theorem c7_userAgents_symm (a b : String) :
    Magicauth.compare.userAgents a b = Magicauth.compare.userAgents b a := by
  rw [userAgents_decide, userAgents_decide,
    decide_eq_symm (UserAgentParser.getResult a).cpu.architecture
      (UserAgentParser.getResult b).cpu.architecture,
    decide_eq_symm (UserAgentParser.getResult a).os.name (UserAgentParser.getResult b).os.name,
    decide_eq_symm (UserAgentParser.getResult a).browser.name
      (UserAgentParser.getResult b).browser.name]

/-- C8: two completely unparseable user-agent strings, whose parses leave
all three policy fields empty, compare as matching. -/
theorem c8_unparseable_match (a b : String)
    (ha : Magicauth.UserAgentParser.getResult a = ⟨⟨""⟩, ⟨""⟩, ⟨""⟩⟩)
    (hb : Magicauth.UserAgentParser.getResult b = ⟨⟨""⟩, ⟨""⟩, ⟨""⟩⟩) :
    Magicauth.compare.userAgents a b = true := by
  rw [userAgents_decide, ha, hb]
  simp

/-- C8 witness: two concrete strings bearing no recognized token. -/
theorem c8_unparseable_match_witness :
    Magicauth.compare.userAgents "@@@ 111 ???" "zzz ??? 999" = true :=
  c8_unparseable_match "@@@ 111 ???" "zzz ??? 999" (by decide) (by decide)

/-- C9: whenever the session address classifies as private, the comparison
returns true for every request string whatsoever, including malformed or
empty strings. -/
theorem c9_private_session_any_request (r s : String)
    (h : Magicauth.ip.isPrivate s = true) :
    Magicauth.compare.ipAddresses r s = true := by
  simp [Magicauth.compare.ipAddresses, h]

/-- C9 witness: the empty string and a malformed string both match a
private session address. -/
theorem c9_private_session_any_request_witness :
    Magicauth.compare.ipAddresses "" "10.0.0.1" = true ∧
    Magicauth.compare.ipAddresses "garbage###" "172.20.3.4" = true :=
  ⟨c9_private_session_any_request "" "10.0.0.1" (by decide),
    c9_private_session_any_request "garbage###" "172.20.3.4" (by decide)⟩

/-- C10: the legacy JavaScript comparison functions and the TypeScript
ports are extensionally equal on every pair of input strings. -/
theorem c10_legacy_equiv :
    (∀ a b, Magicauth.legacyCompare.userAgents a b = Magicauth.compare.userAgents a b) ∧
    (∀ a b, Magicauth.legacyCompare.ipAddresses a b = Magicauth.compare.ipAddresses a b) :=
  ⟨fun _ _ => rfl, fun _ _ => rfl⟩

end Magicauth
